import Mathlib

/-!
Verification development for the Rankine-cycle calculator (HW8_SP25).

The repository ships the GUI front-end `P2/Rankine_app_MVC.py`; the
computational core it delegates to (the `rankineController`, cycle solver,
property table and plot sampler) is described by the design specification.
Sections below embed, in order:

* the cycle-solver data model and operations, modelled from the spec
  (the solver module is not part of the shipped source excerpt);
* the plot-sampler contract, likewise modelled from the spec;
* the GUI wiring, hover handling and start-up sequence, translated
  directly from `Rankine_app_MVC.py`.

All physical quantities are rationals; divisions are exact rational
divisions (Lean's total `/` on `ℚ`).
-/

deriving instance DecidableEq for Except

namespace Rankine

/-- Unit system selector: SI or English. -/
inductive UnitSystem where
  | SI
  | English
deriving DecidableEq, Repr, Inhabited

/-- Turbine-inlet specification: saturated mixture quality, or a
superheat temperature. -/
inductive InletSpec where
  | quality (x : ℚ)
  | temperature (T : ℚ)
deriving DecidableEq, Repr, Inhabited

/-- Cycle boundary conditions: high/low pressures, inlet specification and
turbine isentropic efficiency. -/
structure CycleBoundary where
  pHigh : ℚ
  pLow : ℚ
  inlet : InletSpec
  etat : ℚ
deriving DecidableEq, Repr, Inhabited

/-- Saturation-line properties at one pressure: saturation temperature and
saturated-liquid/vapor enthalpy, entropy and specific volume. -/
structure SatProps where
  Tsat : ℚ
  hf : ℚ
  hg : ℚ
  sf : ℚ
  sg : ℚ
  vf : ℚ
  vg : ℚ
deriving DecidableEq, Repr, Inhabited

/-- Modelled from the spec: the property table (not in the shipped source).
`sat p` returns the saturation row at pressure `p`, `sup p T` a
superheated-vapor lookup `(h, s, v)`, and `supReverseS p s` the reverse
superheated lookup of enthalpy from entropy at pressure `p`; `none`
encodes an out-of-range lookup. -/
structure PropertyTable where
  sat : ℚ → Option SatProps
  sup : ℚ → ℚ → Option (ℚ × ℚ × ℚ)
  supReverseS : ℚ → ℚ → Option ℚ

/-- One thermodynamic state point; `x` is the two-phase quality, `none`
when the point is superheated. -/
structure StatePoint where
  P : ℚ
  T : ℚ
  h : ℚ
  s : ℚ
  v : ℚ
  x : Option ℚ
deriving DecidableEq, Repr, Inhabited

/-- A resolved cycle: the four state points and the derived specific work,
heat and efficiency terms. -/
structure CycleResult where
  st1 : StatePoint
  st2 : StatePoint
  st3 : StatePoint
  st4 : StatePoint
  wt : ℚ
  wp : ℚ
  qin : ℚ
  etath : ℚ
deriving DecidableEq, Repr, Inhabited

/-- Sub-kind of a boundary-validation failure. -/
inductive BoundaryFault where
  | pressureOrdering
  | inletSpecification
deriving DecidableEq, Repr, Inhabited

/-- Errors surfaced by the cycle solver; the `Nat` of `propertyLookup`
identifies the state point whose table lookup failed. -/
inductive CycleError where
  | invalidBoundary (fault : BoundaryFault)
  | propertyLookup (statePoint : Nat)
deriving DecidableEq, Repr, Inhabited

/-- A boundary is valid when `P_H > P_L > 0` and `eta_t` lies in `(0,1]`. -/
def validBoundary (b : CycleBoundary) : Prop :=
  0 < b.pLow ∧ b.pLow < b.pHigh ∧ 0 < b.etat ∧ b.etat ≤ 1

instance (b : CycleBoundary) : Decidable (validBoundary b) := by
  unfold validBoundary; infer_instance

/-- Modelled from the spec: resolve state 1 (turbine inlet). Quality mode
interpolates the saturated mixture at `P_H`; temperature mode performs a
superheated lookup at `(P_H, T₁)`. -/
def state1Of (tbl : PropertyTable) (b : CycleBoundary) :
    Except CycleError StatePoint :=
  match tbl.sat b.pHigh with
  | none => .error (.propertyLookup 1)
  | some sp =>
    match b.inlet with
    | .quality x =>
      .ok ⟨b.pHigh, sp.Tsat, sp.hf + x * (sp.hg - sp.hf),
           sp.sf + x * (sp.sg - sp.sf), sp.vf + x * (sp.vg - sp.vf), some x⟩
    | .temperature T =>
      match tbl.sup b.pHigh T with
      | none => .error (.propertyLookup 1)
      | some (h, s, v) => .ok ⟨b.pHigh, T, h, s, v, none⟩

/-- Modelled from the spec: isentropic turbine-exit enthalpy `h₂ₛ` at exit
pressure `pLow` for inlet entropy `s1`: invert the entropy-quality relation
`sf + x·(sg − sf) = s1`, clamp the quality to `[0,1]`; if the inversion
would need `x > 1` the exit is superheated and a reverse lookup is used. -/
def h2sAt (tbl : PropertyTable) (pLow s1 : ℚ) : Except CycleError ℚ :=
  match tbl.sat pLow with
  | none => .error (.propertyLookup 2)
  | some sp =>
    let x := (s1 - sp.sf) / (sp.sg - sp.sf)
    let xc := max 0 x
    if xc ≤ 1 then .ok (sp.hf + xc * (sp.hg - sp.hf))
    else
      match tbl.supReverseS pLow s1 with
      | none => .error (.propertyLookup 2)
      | some h => .ok h

/-- Modelled from the spec: `recompute` resolves the four state points and
derived terms in one closed-form pass (no iteration): state 1 from the
inlet specification, isentropic exit `h₂ₛ`, actual exit
`h₂ = h₁ − η_t·(h₁ − h₂ₛ)`, state 3 saturated liquid at `P_L`, pump work
`w_p = v₃·(P_H − P_L)`, `h₄ = h₃ + w_p`, then `w_t = h₁ − h₂`,
`q_in = h₁ − h₄`, `η_th = (w_t − w_p)/q_in`. -/
def recompute (tbl : PropertyTable) (b : CycleBoundary) :
    Except CycleError CycleResult :=
  match state1Of tbl b with
  | .error e => .error e
  | .ok st1 =>
    match tbl.sat b.pLow with
    | none => .error (.propertyLookup 3)
    | some spL =>
      match h2sAt tbl b.pLow st1.s with
      | .error e => .error e
      | .ok h2s =>
        let h2 := st1.h - b.etat * (st1.h - h2s)
        let x2 := max 0 (min 1 ((h2 - spL.hf) / (spL.hg - spL.hf)))
        let st2 : StatePoint :=
          ⟨b.pLow, spL.Tsat, h2, spL.sf + x2 * (spL.sg - spL.sf),
           spL.vf + x2 * (spL.vg - spL.vf), some x2⟩
        let st3 : StatePoint :=
          ⟨b.pLow, spL.Tsat, spL.hf, spL.sf, spL.vf, some 0⟩
        let wp := spL.vf * (b.pHigh - b.pLow)
        let h4 := spL.hf + wp
        let st4 : StatePoint :=
          ⟨b.pHigh, spL.Tsat, h4, spL.sf, spL.vf, none⟩
        let wt := st1.h - h2
        let qin := st1.h - h4
        .ok ⟨st1, st2, st3, st4, wt, wp, qin, (wt - wp) / qin⟩

/-- Solver state: current unit system, boundary, and the last published
`CycleResult` (none before the first successful recompute). -/
structure SolverState where
  units : UnitSystem
  boundary : CycleBoundary
  lastResult : Option CycleResult
deriving DecidableEq, Repr, Inhabited

/-- Modelled from the spec: boundary validation. Pressure ordering is
checked first; then the inlet specification (quality in `[0,1]`, or a
temperature strictly above the saturation temperature at `P_H`). -/
def validateBoundary (tbl : PropertyTable) (b : CycleBoundary) :
    Option BoundaryFault :=
  if b.pHigh ≤ b.pLow ∨ b.pLow ≤ 0 then some .pressureOrdering
  else
    match b.inlet with
    | .quality x =>
      if x < 0 ∨ 1 < x then some .inletSpecification else none
    | .temperature T =>
      match tbl.sat b.pHigh with
      | some sp => if T ≤ sp.Tsat then some .inletSpecification else none
      | none => none

/-- Modelled from the spec: `setBoundary` validates and, on success, stores
the new boundary and unit system; on failure it reports the fault and
returns the solver state untouched. -/
def setBoundary (tbl : PropertyTable) (s : SolverState)
    (b : CycleBoundary) (u : UnitSystem) :
    SolverState × Option CycleError :=
  match validateBoundary tbl b with
  | some fault => (s, some (.invalidBoundary fault))
  | none => ({ s with boundary := b, units := u }, none)

/-- Modelled from the spec: the stateful recompute operation. A successful
recompute replaces the stored result atomically; a failed one publishes
nothing. -/
def recomputeOp (tbl : PropertyTable) (s : SolverState) :
    SolverState × Except CycleError CycleResult :=
  match recompute tbl s.boundary with
  | .ok r => ({ s with lastResult := some r }, .ok r)
  | .error e => (s, .error e)

/-! ### Plot sampler, modelled from the spec -/

/-- Axis variables selectable for either plot axis. -/
inductive AxisVar where
  | T
  | s
  | h
  | P
  | v
deriving DecidableEq, Repr, Inhabited

/-- Errors surfaced by the plot sampler. -/
inductive PlotError where
  | domainError
deriving DecidableEq, Repr, Inhabited

/-- Read the requested axis variable off a state point. -/
def getVar (sp : StatePoint) : AxisVar → ℚ
  | .T => sp.T
  | .s => sp.s
  | .h => sp.h
  | .P => sp.P
  | .v => sp.v

/-- The raw (untransformed) coordinates of the four cycle state points for
the chosen axis pair, in cycle order. -/
def rawPoints (r : CycleResult) (xv yv : AxisVar) : List (ℚ × ℚ) :=
  [r.st1, r.st2, r.st3, r.st4].map (fun sp => (getVar sp xv, getVar sp yv))

/-- Modelled from the spec: the per-coordinate log transform. With the flag
clear the value passes through; with it set a non-positive value is a
`DomainError`, a positive one is mapped through `logFn` (the numeric
logarithm, abstracted since only its domain behavior is specified). -/
def logTransform (logFn : ℚ → ℚ) (flag : Bool) (v : ℚ) :
    Except PlotError ℚ :=
  if flag then
    if v ≤ 0 then .error .domainError else .ok (logFn v)
  else .ok v

/-- Transform one coordinate pair under the current log-scale flags. -/
def samplePoint (logFn : ℚ → ℚ) (logX logY : Bool) (p : ℚ × ℚ) :
    Except PlotError (ℚ × ℚ) :=
  match logTransform logFn logX p.1 with
  | .error e => .error e
  | .ok x =>
    match logTransform logFn logY p.2 with
    | .error e => .error e
    | .ok y => .ok (x, y)

/-- Transform every coordinate pair in order, stopping at the first
failing one. -/
def samplePoints (logFn : ℚ → ℚ) (logX logY : Bool) :
    List (ℚ × ℚ) → Except PlotError (List (ℚ × ℚ))
  | [] => .ok []
  | p :: rest =>
    match samplePoint logFn logX logY p with
    | .error e => .error e
    | .ok q =>
      match samplePoints logFn logX logY rest with
      | .error e => .error e
      | .ok qs => .ok (q :: qs)

/-- Modelled from the spec: `PlotSampler.sample` produces the ordered
coordinate sequence for the cycle state points followed by the saturation
dome samples (`dome`), each pushed through the log-scale transform; any
non-positive value under a set log flag fails the whole call with a
`DomainError` (no clamping). -/
def sample (logFn : ℚ → ℚ) (r : CycleResult) (xv yv : AxisVar)
    (logX logY : Bool) (dome : List (ℚ × ℚ)) :
    Except PlotError (List (ℚ × ℚ)) :=
  samplePoints logFn logX logY (rawPoints r xv yv ++ dome)

/-! ### GUI layer, translated from `P2/Rankine_app_MVC.py` -/

/-- The controller operations `MainWindow` delegates to
(`rankineController` methods invoked in the slot bodies). -/
inductive ControllerCall where
  | updateModel
  | selectQualityOrTHigh
  | updatePlot
  | updateUnits
  | setNewPHigh
  | setNewPLow
deriving DecidableEq, Repr, Inhabited

/-- The `MainWindow` slot methods. -/
inductive Slot where
  | calculateSlot
  | selectQualityOrTHighSlot
  | setPlotVariablesSlot
  | setUnitsSlot
  | setNewPHighSlot
  | setNewPLowSlot
deriving DecidableEq, Repr, Inhabited

/-- The GUI events wired up in `MainWindow.AssignSlots`. -/
inductive UIEvent where
  | btnCalculateClicked
  | rdoQualityClicked
  | rdoTHighClicked
  | lePHighEditingFinished
  | lePLowEditingFinished
  | rbSIClicked
  | rbEnglishClicked
  | cmbXAxisChanged
  | cmbYAxisChanged
  | chkLogXToggled
  | chkLogYToggled
deriving DecidableEq, Repr, Inhabited

/-- The signal-slot wiring established by `MainWindow.AssignSlots`. -/
def assignSlots : UIEvent → Slot
  | .btnCalculateClicked => .calculateSlot
  | .rdoQualityClicked => .selectQualityOrTHighSlot
  | .rdoTHighClicked => .selectQualityOrTHighSlot
  | .lePHighEditingFinished => .setNewPHighSlot
  | .lePLowEditingFinished => .setNewPLowSlot
  | .rbSIClicked => .setUnitsSlot
  | .rbEnglishClicked => .setUnitsSlot
  | .cmbXAxisChanged => .setPlotVariablesSlot
  | .cmbYAxisChanged => .setPlotVariablesSlot
  | .chkLogXToggled => .setPlotVariablesSlot
  | .chkLogYToggled => .setPlotVariablesSlot

/-- The controller calls each slot body performs, in order (each slot body
in `Rankine_app_MVC.py` is a single synchronous controller call). -/
def slotBody : Slot → List ControllerCall
  | .calculateSlot => [.updateModel]
  | .selectQualityOrTHighSlot => [.selectQualityOrTHigh]
  | .setPlotVariablesSlot => [.updatePlot]
  | .setUnitsSlot => [.updateUnits]
  | .setNewPHighSlot => [.setNewPHigh]
  | .setNewPLowSlot => [.setNewPLow]

/-- Axis/log-scale selections the controller reads when it redraws the
plot; `dome` stands for the saturation-dome samples it draws the cycle
against. -/
structure PlotConfig where
  xVar : AxisVar
  yVar : AxisVar
  logX : Bool
  logY : Bool
  dome : List (ℚ × ℚ)

/-- Modelled from the spec: the controller's `updatePlot` recomputes the
whole plot sequence from the current cycle result and axis selections; it
takes no previously drawn curve as input, so no cached partial curve can
be reused. -/
def updatePlotResult (logFn : ℚ → ℚ) (res : CycleResult)
    (cfg : PlotConfig) : Except PlotError (List (ℚ × ℚ)) :=
  sample logFn res cfg.xVar cfg.yVar cfg.logX cfg.logY cfg.dome

/-- Hover-tracking state: the last in-axes mouse coordinates
(`self.oldXData` / `self.oldYData`). -/
structure HoverState where
  oldXData : ℚ
  oldYData : ℚ
deriving DecidableEq, Repr, Inhabited

/-- The constructor initializes both stored hover coordinates to `0.0`. -/
def initHover : HoverState := ⟨0, 0⟩

/-- A matplotlib canvas motion event: `xdata`/`ydata` are `none` when the
pointer is outside the plot axes. -/
structure CanvasEvent where
  xdata : Option ℚ
  ydata : Option ℚ
deriving DecidableEq, Repr, Inhabited

/-- `MainWindow.mouseMoveEvent_Canvas` state update: each stored
coordinate takes the event value when it is not `None` and otherwise keeps
its previous value. -/
def mouseMoveEventCanvas (s : HoverState) (e : CanvasEvent) : HoverState :=
  ⟨e.xdata.getD s.oldXData, e.ydata.getD s.oldYData⟩

/-- The entropy unit suffix chosen on line 92 of `Rankine_app_MVC.py`. -/
def hoverSUnit (si : Bool) : String :=
  if si then "kJ/(kg*K)" else "BTU/(lb*R)"

/-- The temperature unit suffix chosen on line 93 of
`Rankine_app_MVC.py`. -/
def hoverTUnit (si : Bool) : String :=
  if si then "C" else "F"

/-- The window-title string built on line 94 of `Rankine_app_MVC.py`;
`fmt` abstracts Python's fixed-two-decimal float formatting. -/
def hoverWindowTitle (si : Bool) (fmt : ℚ → String) (s : HoverState) :
    String :=
  "s: " ++ fmt s.oldXData ++ " " ++ hoverSUnit si ++
    ", T: " ++ fmt s.oldYData ++ " " ++ hoverTUnit si

/-- The value each stored hover coordinate holds after a run of events:
the last non-`None` datum seen, if any. -/
def lastEntered : List (Option ℚ) → Option ℚ
  | [] => none
  | o :: rest =>
    match lastEntered rest with
    | some v => some v
    | none => o

/-- The steps of `MainWindow.__init__`, in source order
(lines 25–54 of `Rankine_app_MVC.py`). -/
inductive InitStep where
  | callSuperInit
  | callSetupUi
  | callAssignSlots
  | callMakeCanvas
  | buildWidgetLists
  | createController
  | callSetNewPHigh
  | callSetNewPLow
  | callCalculate
  | initHoverCoords
  | showWindow
deriving DecidableEq, Repr, Inhabited

/-- The trace of `MainWindow.__init__`, translated line by line. -/
def initTrace : List InitStep :=
  [.callSuperInit, .callSetupUi, .callAssignSlots, .callMakeCanvas,
   .buildWidgetLists, .createController, .callSetNewPHigh, .callSetNewPLow,
   .callCalculate, .initHoverCoords, .showWindow]

/-! ### A concrete two-row saturation table (standard steam-table data,
pressures in kPa, enthalpies in kJ/kg) used to instantiate theorems. -/

/-- Saturation row at 8000 kPa. -/
def satRow8000 : SatProps :=
  ⟨295.06, 1316.64, 2758, 3.2068, 5.7432, 0.001384, 0.02352⟩

/-- Saturation row at 8 kPa. -/
def satRow8 : SatProps :=
  ⟨41.51, 173.88, 2577, 0.5926, 8.2287, 0.0010084, 18.103⟩

/-- A concrete property table holding the two saturation rows of the
classic 8000 kPa / 8 kPa Rankine example. -/
def tblW : PropertyTable where
  sat p := if p = 8000 then some satRow8000
           else if p = 8 then some satRow8 else none
  sup _ _ := none
  supReverseS _ _ := none

/-- The classic ideal-cycle boundary: saturated-vapor inlet at 8000 kPa,
condenser at 8 kPa, ideal turbine. -/
def bW : CycleBoundary := ⟨8000, 8, .quality 1, 1⟩

/-- The same boundary with turbine efficiency 0.85. -/
def bW85 : CycleBoundary := ⟨8000, 8, .quality 1, 0.85⟩

/-- State 1 of the classic example: saturated vapor at 8000 kPa. -/
def st1W : StatePoint :=
  ⟨8000, 295.06, 2758, 5.7432, 0.02352, some 1⟩

/-- The isentropic exit enthalpy of the classic example, as `h2sAt`
computes it. -/
def h2sW : ℚ := satRow8.hf + (st1W.s - satRow8.sf) / (satRow8.sg - satRow8.sf) * (satRow8.hg - satRow8.hf)

/-- The cycle result of the classic example at `eta_t = 1`
(η_th = 1199596795399/3235371445399 ≈ 0.3708). -/
def rW : CycleResult :=
  ⟨⟨8000, 14753/50, 2758, 7179/1250, 147/6250, some 1⟩,
   ⟨8, 4151/100, 36066513/20095, 7179/1250, 24537846889/2009500000,
    some (51506/76361)⟩,
   ⟨8, 4151/100, 4347/25, 2963/5000, 2521/2500000, some 0⟩,
   ⟨8000, 4151/100, 56855979/312500, 2963/5000, 2521/2500000, none⟩,
   19355497/20095, 2518479/312500, 805019021/312500,
   1199596795399/3235371445399⟩

/-- The cycle result of the classic example at `eta_t = 0.85`
(η_th ≈ 0.3147). -/
def rW85 : CycleResult :=
  ⟨⟨8000, 14753/50, 2758, 7179/1250, 147/6250, some 1⟩,
   ⟨8, 4151/100, 779396751/401900, 261488809/42160000,
    563359528750097/42360260000000, some (236504793/321937976)⟩,
   ⟨8, 4151/100, 4347/25, 2963/5000, 2521/2500000, some 0⟩,
   ⟨8000, 4151/100, 56855979/312500, 2963/5000, 2521/2500000, none⟩,
   329043449/401900, 2518479/312500, 805019021/312500,
   1018139011024/3235371445399⟩

/-- The classic boundary with a tiny turbine efficiency `eta_t = 1/1000`:
still a valid boundary, but the turbine work it leaves is below the pump
work. -/
def bTiny : CycleBoundary := ⟨8000, 8, .quality 1, 1/1000⟩

/-- The cycle result at `bTiny`: the thermal efficiency comes out
negative (η_th = −17824097077/6470742890798 ≈ −0.00275). -/
def rTiny : CycleResult :=
  ⟨⟨8000, 14753/50, 2758, 7179/1250, 147/6250, some 1⟩,
   ⟨8, 4151/100, 55402654503/20095000, 82287/10000, 18103/1000, some 1⟩,
   ⟨8, 4151/100, 4347/25, 2963/5000, 2521/2500000, some 0⟩,
   ⟨8000, 4151/100, 56855979/312500, 2963/5000, 2521/2500000, none⟩,
   19355497/20095000, 2518479/312500, 805019021/312500,
   -17824097077/6470742890798⟩

/-- A solver state holding the classic boundary and its result. -/
def sW : SolverState := ⟨.SI, bW, some rW⟩

/-- A boundary with the two pressures swapped (`P_H ≤ P_L`). -/
def bBad : CycleBoundary := ⟨8, 8000, .quality 1, 1⟩

/-! ### Helper lemmas -/

/-- A coordinate pair with a non-positive value on an axis whose log flag
is set transforms to a `DomainError`. -/
theorem samplePoint_nonpositive (logFn : ℚ → ℚ) (logX logY : Bool)
    (x y : ℚ)
    (h : (logX = true ∧ x ≤ 0) ∨ (logY = true ∧ y ≤ 0)) :
    samplePoint logFn logX logY (x, y) = .error .domainError := by
  rcases h with ⟨hx, hv⟩ | ⟨hy, hv⟩
  · subst hx
    simp [samplePoint, logTransform, hv]
  · subst hy
    unfold samplePoint logTransform
    cases logX with
    | false => simp [hv]
    | true =>
      by_cases hx0 : x ≤ 0
      · simp [hx0]
      · simp [hx0, hv]

/-- If any listed pair transforms to a `DomainError`, the whole traversal
returns a `DomainError`. -/
theorem samplePoints_error (logFn : ℚ → ℚ) (logX logY : Bool)
    (p : ℚ × ℚ) (l : List (ℚ × ℚ))
    (hmem : p ∈ l)
    (herr : samplePoint logFn logX logY p = .error .domainError) :
    samplePoints logFn logX logY l = .error .domainError := by
  induction l with
  | nil => cases hmem
  | cons a t ih =>
    unfold samplePoints
    cases hmem with
    | head => rw [herr]
    | tail _ hmem' =>
      cases ha : samplePoint logFn logX logY a with
      | error e => cases e; rfl
      | ok v => rw [ih hmem']

/-- Unfolding `lastEntered` over a cons, phrased through `Option.getD`. -/
theorem lastEntered_cons (o : Option ℚ) (l : List (Option ℚ)) (d : ℚ) :
    (lastEntered (o :: l)).getD d = (lastEntered l).getD (o.getD d) := by
  rw [lastEntered]
  cases lastEntered l with
  | some v => rfl
  | none =>
    cases o with
    | some w => rfl
    | none => rfl

/-- After any run of canvas events the stored hover coordinates hold the
last non-`None` datum of each axis, defaulting to the start state. -/
theorem hoverFold_getD (es : List CanvasEvent) (s : HoverState) :
    (es.foldl mouseMoveEventCanvas s).oldXData =
      (lastEntered (es.map CanvasEvent.xdata)).getD s.oldXData ∧
    (es.foldl mouseMoveEventCanvas s).oldYData =
      (lastEntered (es.map CanvasEvent.ydata)).getD s.oldYData := by
  induction es generalizing s with
  | nil => exact ⟨rfl, rfl⟩
  | cons e t ih =>
    simp only [List.foldl_cons, List.map_cons]
    constructor
    · rw [lastEntered_cons]
      exact (ih (mouseMoveEventCanvas s e)).1
    · rw [lastEntered_cons]
      exact (ih (mouseMoveEventCanvas s e)).2

/-! ### Claim theorems -/

/-- C1: for a valid boundary whose isentropic exit enthalpy `h2s` is
resolved, `recompute` yields the actual turbine-exit enthalpy
`h₂ = h₁ − η_t·(h₁ − h₂ₛ)` in one closed-form step, and the derived terms
satisfy `w_t = h₁ − h₂`, `q_in = h₁ − h₄` and
`η_th = (w_t − w_p)/q_in`. -/
theorem recompute_isentropic_correction
    (tbl : PropertyTable) (b : CycleBoundary) (st1 : StatePoint)
    (h2s : ℚ) (r : CycleResult)
    (_hb : validBoundary b)
    (h1 : state1Of tbl b = .ok st1)
    (hs : h2sAt tbl b.pLow st1.s = .ok h2s)
    (hr : recompute tbl b = .ok r) :
    r.st1 = st1 ∧
    r.st2.h = st1.h - b.etat * (st1.h - h2s) ∧
    r.wt = r.st1.h - r.st2.h ∧
    r.qin = r.st1.h - r.st4.h ∧
    r.etath = (r.wt - r.wp) / r.qin := by
  unfold recompute at hr
  rw [h1] at hr
  cases hL : tbl.sat b.pLow with
  | none => rw [hL] at hr; exact absurd hr (by simp)
  | some spL =>
    rw [hL] at hr
    dsimp only at hr
    rw [hs] at hr
    simp only [Except.ok.injEq] at hr
    subst hr
    refine ⟨rfl, rfl, rfl, ?_, rfl⟩
    show st1.h - (spL.hf + spL.vf * (b.pHigh - b.pLow)) = _
    ring

/-- C1 witness: the closed-form correction at the classic
8000 kPa / 8 kPa saturated-vapor boundary. -/
theorem recompute_isentropic_correction_witness :
    validBoundary bW ∧
    state1Of tblW bW = .ok st1W ∧
    h2sAt tblW bW.pLow st1W.s = .ok h2sW ∧
    recompute tblW bW = .ok rW ∧
    (rW.st1 = st1W ∧
     rW.st2.h = st1W.h - bW.etat * (st1W.h - h2sW) ∧
     rW.wt = rW.st1.h - rW.st2.h ∧
     rW.qin = rW.st1.h - rW.st4.h ∧
     rW.etath = (rW.wt - rW.wp) / rW.qin) := by
  have hv : validBoundary bW := by norm_num [validBoundary, bW]
  have h1 : state1Of tblW bW = .ok st1W := by
    simp only [state1Of, tblW, bW, satRow8000, st1W]
    norm_num
  have hs : h2sAt tblW bW.pLow st1W.s = .ok h2sW := by
    simp only [h2sAt, tblW, bW, satRow8, st1W, h2sW]
    norm_num
  have hr : recompute tblW bW = .ok rW := by
    simp only [recompute, state1Of, h2sAt, tblW, bW, satRow8000, satRow8, rW]
    norm_num
  exact ⟨hv, h1, hs, hr,
    recompute_isentropic_correction tblW bW st1W h2sW rW hv h1 hs hr⟩

/-- C2: a boundary with `P_H ≤ P_L` is rejected with the
pressure-ordering `InvalidBoundaryError`, and the solver state — in
particular the previously stored `CycleResult` — is left entirely
unchanged. -/
theorem setBoundary_rejects_bad_pressure
    (tbl : PropertyTable) (s : SolverState) (b : CycleBoundary)
    (u : UnitSystem) (h : b.pHigh ≤ b.pLow) :
    (setBoundary tbl s b u).1 = s ∧
    (setBoundary tbl s b u).2 =
      some (CycleError.invalidBoundary .pressureOrdering) := by
  unfold setBoundary validateBoundary
  rw [if_pos (Or.inl h)]
  exact ⟨rfl, rfl⟩

/-- C2 witness: swapping the two pressures of the classic boundary gets
rejected and leaves the stored result intact. -/
theorem setBoundary_rejects_bad_pressure_witness :
    bBad.pHigh ≤ bBad.pLow ∧
    ((setBoundary tblW sW bBad .English).1 = sW ∧
     (setBoundary tblW sW bBad .English).2 =
       some (CycleError.invalidBoundary .pressureOrdering)) :=
  ⟨by norm_num [bBad],
   setBoundary_rejects_bad_pressure tblW sW bBad .English
     (by norm_num [bBad])⟩

/-- C3 counterexample: the boundary `⟨8000, 8, quality 1, η_t = 1/1000⟩`
satisfies `P_H > P_L > 0` and `η_t ∈ (0,1]`, yet `recompute` gives it a
negative thermal efficiency — `η_th ∈ (0,1)` fails for this valid
boundary, because its pump work exceeds its turbine work. -/
theorem recompute_etath_negative_counterexample :
    validBoundary bTiny ∧
    recompute tblW bTiny = .ok rTiny ∧
    ¬(0 < rTiny.etath ∧ rTiny.etath < 1) := by
  refine ⟨by norm_num [validBoundary, bTiny], ?_, ?_⟩
  · simp only [recompute, state1Of, h2sAt, tblW, bTiny, satRow8000, satRow8,
      rTiny]
    norm_num
  · intro h
    exact absurd h.1 (by norm_num [rTiny])

/-- C3 (amended): for a valid boundary (pressures ordered, efficiency in
`(0,1]`) whose table data is physical (exit saturated-liquid enthalpy
below the isentropic exit enthalpy below the inlet enthalpy) and whose
turbine work exceeds its pump work, the thermal efficiency of the
recomputed cycle lies strictly between 0 and 1. -/
theorem recompute_etath_bounds
    (tbl : PropertyTable) (b : CycleBoundary) (st1 : StatePoint)
    (h2s : ℚ) (spL : SatProps) (r : CycleResult)
    (hb : validBoundary b)
    (h1 : state1Of tbl b = .ok st1)
    (hL : tbl.sat b.pLow = some spL)
    (hs : h2sAt tbl b.pLow st1.s = .ok h2s)
    (hlow : spL.hf < h2s)
    (hhigh : h2s < st1.h)
    (hwork : spL.vf * (b.pHigh - b.pLow) < b.etat * (st1.h - h2s))
    (hr : recompute tbl b = .ok r) :
    0 < r.etath ∧ r.etath < 1 := by
  obtain ⟨hpL, hPh, he0, he1⟩ := hb
  unfold recompute at hr
  rw [h1, hL] at hr
  dsimp only at hr
  rw [hs] at hr
  simp only [Except.ok.injEq] at hr
  subst hr
  dsimp only
  have hD : 0 < st1.h - h2s := sub_pos.mpr hhigh
  have heD : b.etat * (st1.h - h2s) ≤ 1 * (st1.h - h2s) :=
    mul_le_mul_of_nonneg_right he1 hD.le
  have hq : 0 < st1.h - (spL.hf + spL.vf * (b.pHigh - b.pLow)) := by
    nlinarith
  have hn : 0 < st1.h - (st1.h - b.etat * (st1.h - h2s)) -
      spL.vf * (b.pHigh - b.pLow) := by nlinarith
  constructor
  · exact div_pos hn hq
  · rw [div_lt_one hq]
    nlinarith

/-- C3 witness: the classic boundary lands at
η_th = 1199596795399/3235371445399 ≈ 0.371 ∈ (0,1). -/
theorem recompute_etath_bounds_witness :
    validBoundary bW ∧
    state1Of tblW bW = .ok st1W ∧
    tblW.sat bW.pLow = some satRow8 ∧
    h2sAt tblW bW.pLow st1W.s = .ok h2sW ∧
    satRow8.hf < h2sW ∧
    h2sW < st1W.h ∧
    satRow8.vf * (bW.pHigh - bW.pLow) < bW.etat * (st1W.h - h2sW) ∧
    recompute tblW bW = .ok rW ∧
    (0 < rW.etath ∧ rW.etath < 1) := by
  have hv : validBoundary bW := by norm_num [validBoundary, bW]
  have h1 : state1Of tblW bW = .ok st1W := by
    simp only [state1Of, tblW, bW, satRow8000, st1W]
    norm_num
  have hL : tblW.sat bW.pLow = some satRow8 := by
    simp only [tblW, bW]
    norm_num
  have hs : h2sAt tblW bW.pLow st1W.s = .ok h2sW := by
    simp only [h2sAt, tblW, bW, satRow8, st1W, h2sW]
    norm_num
  have hlow : satRow8.hf < h2sW := by
    norm_num [satRow8, h2sW, st1W]
  have hhigh : h2sW < st1W.h := by
    norm_num [satRow8, h2sW, st1W]
  have hwork : satRow8.vf * (bW.pHigh - bW.pLow) <
      bW.etat * (st1W.h - h2sW) := by
    norm_num [satRow8, bW, h2sW, st1W]
  have hr : recompute tblW bW = .ok rW := by
    simp only [recompute, state1Of, h2sAt, tblW, bW, satRow8000, satRow8, rW]
    norm_num
  exact ⟨hv, h1, hL, hs, hlow, hhigh, hwork, hr,
    recompute_etath_bounds tblW bW st1W h2sW satRow8 rW
      hv h1 hL hs hlow hhigh hwork hr⟩

/-- C4: raising the turbine efficiency with every other boundary input
fixed strictly raises the recomputed `w_t` and `η_th`, while `w_p` and
`q_in` are unchanged. -/
theorem recompute_etat_monotone
    (tbl : PropertyTable) (b1 b2 : CycleBoundary) (st1 : StatePoint)
    (h2s : ℚ) (spL : SatProps) (r1 r2 : CycleResult)
    (hpH : b1.pHigh = b2.pHigh) (hpL : b1.pLow = b2.pLow)
    (hin : b1.inlet = b2.inlet) (he : b1.etat < b2.etat)
    (h1 : state1Of tbl b1 = .ok st1)
    (hL : tbl.sat b1.pLow = some spL)
    (hs : h2sAt tbl b1.pLow st1.s = .ok h2s)
    (hD : h2s < st1.h)
    (hq : spL.hf + spL.vf * (b1.pHigh - b1.pLow) < st1.h)
    (hr1 : recompute tbl b1 = .ok r1)
    (hr2 : recompute tbl b2 = .ok r2) :
    r1.wt < r2.wt ∧ r1.etath < r2.etath ∧
    r1.wp = r2.wp ∧ r1.qin = r2.qin := by
  obtain ⟨pH1, pL1, in1, e1⟩ := b1
  obtain ⟨pH2, pL2, in2, e2⟩ := b2
  dsimp only at hpH hpL hin he h1 hL hs hq hr1 hr2
  subst hpH hpL hin
  have h1' : state1Of tbl ⟨pH1, pL1, in1, e2⟩ = .ok st1 := h1
  unfold recompute at hr1 hr2
  rw [h1, hL] at hr1
  rw [h1', hL] at hr2
  dsimp only at hr1 hr2
  rw [hs] at hr1 hr2
  simp only [Except.ok.injEq] at hr1 hr2
  subst hr1; subst hr2
  dsimp only
  have hDpos : 0 < st1.h - h2s := sub_pos.mpr hD
  refine ⟨by nlinarith, ?_, rfl, rfl⟩
  have hqpos : 0 < st1.h - (spL.hf + spL.vf * (pH1 - pL1)) := by nlinarith
  rw [div_lt_div_iff₀ hqpos hqpos]
  have hnum : st1.h - (st1.h - e1 * (st1.h - h2s)) - spL.vf * (pH1 - pL1) <
      st1.h - (st1.h - e2 * (st1.h - h2s)) - spL.vf * (pH1 - pL1) := by
    nlinarith
  exact mul_lt_mul_of_pos_right hnum hqpos

/-- C4 witness: on the classic boundary, η_t = 0.85 versus η_t = 1 gives
strictly smaller `w_t` and `η_th` and identical `w_p` and `q_in`. -/
theorem recompute_etat_monotone_witness :
    bW85.pHigh = bW.pHigh ∧ bW85.pLow = bW.pLow ∧
    bW85.inlet = bW.inlet ∧ bW85.etat < bW.etat ∧
    state1Of tblW bW85 = .ok st1W ∧
    tblW.sat bW85.pLow = some satRow8 ∧
    h2sAt tblW bW85.pLow st1W.s = .ok h2sW ∧
    h2sW < st1W.h ∧
    satRow8.hf + satRow8.vf * (bW85.pHigh - bW85.pLow) < st1W.h ∧
    recompute tblW bW85 = .ok rW85 ∧
    recompute tblW bW = .ok rW ∧
    (rW85.wt < rW.wt ∧ rW85.etath < rW.etath ∧
     rW85.wp = rW.wp ∧ rW85.qin = rW.qin) := by
  have he : bW85.etat < bW.etat := by norm_num [bW85, bW]
  have h1 : state1Of tblW bW85 = .ok st1W := by
    simp only [state1Of, tblW, bW85, satRow8000, st1W]
    norm_num
  have hL : tblW.sat bW85.pLow = some satRow8 := by
    simp only [tblW, bW85]
    norm_num
  have hs : h2sAt tblW bW85.pLow st1W.s = .ok h2sW := by
    simp only [h2sAt, tblW, bW85, satRow8, st1W, h2sW]
    norm_num
  have hD : h2sW < st1W.h := by
    norm_num [satRow8, h2sW, st1W]
  have hq : satRow8.hf + satRow8.vf * (bW85.pHigh - bW85.pLow) < st1W.h := by
    norm_num [satRow8, bW85, st1W]
  have hr1 : recompute tblW bW85 = .ok rW85 := by
    simp only [recompute, state1Of, h2sAt, tblW, bW85, satRow8000, satRow8,
      rW85]
    norm_num
  have hr2 : recompute tblW bW = .ok rW := by
    simp only [recompute, state1Of, h2sAt, tblW, bW, satRow8000, satRow8, rW]
    norm_num
  exact ⟨rfl, rfl, rfl, he, h1, hL, hs, hD, hq, hr1, hr2,
    recompute_etat_monotone tblW bW85 bW st1W h2sW satRow8 rW85 rW
      rfl rfl rfl he h1 hL hs hD hq hr1 hr2⟩

/-- C5: two consecutive `recompute` calls with no boundary or unit change
in between publish identical results and end in identical solver
states. -/
theorem recomputeOp_idempotent (tbl : PropertyTable) (s : SolverState) :
    (recomputeOp tbl (recomputeOp tbl s).1).2 = (recomputeOp tbl s).2 ∧
    (recomputeOp tbl (recomputeOp tbl s).1).1 = (recomputeOp tbl s).1 := by
  unfold recomputeOp
  cases h : recompute tbl s.boundary with
  | ok r => simp [h]
  | error e => simp [h]

/-- C6: with a log-scale flag set, a requested coordinate value that is
zero or negative makes `sample` fail with a `DomainError` instead of
clamping or transforming it. -/
theorem sample_log_nonpositive
    (logFn : ℚ → ℚ) (r : CycleResult) (xv yv : AxisVar)
    (logX logY : Bool) (dome : List (ℚ × ℚ)) (x y : ℚ)
    (hmem : (x, y) ∈ rawPoints r xv yv ++ dome)
    (h : (logX = true ∧ x ≤ 0) ∨ (logY = true ∧ y ≤ 0)) :
    sample logFn r xv yv logX logY dome = .error .domainError := by
  unfold sample
  exact samplePoints_error logFn logX logY (x, y) _ hmem
    (samplePoint_nonpositive logFn logX logY x y h)

/-- C6 witness: a zero entropy coordinate in the requested sequence under
a set x-axis log flag produces a `DomainError`. -/
theorem sample_log_nonpositive_witness :
    ((0 : ℚ), (100 : ℚ)) ∈ rawPoints rW .s .T ++ [((0 : ℚ), (100 : ℚ))] ∧
    ((true = true ∧ (0 : ℚ) ≤ 0) ∨ (false = true ∧ (100 : ℚ) ≤ 0)) ∧
    sample (fun q => q) rW .s .T true false [((0 : ℚ), (100 : ℚ))] =
      .error .domainError := by
  have hmem : ((0 : ℚ), (100 : ℚ)) ∈
      rawPoints rW .s .T ++ [((0 : ℚ), (100 : ℚ))] := by simp
  have h : ((true = true ∧ (0 : ℚ) ≤ 0) ∨
      (false = true ∧ (100 : ℚ) ≤ 0)) := Or.inl ⟨rfl, le_refl 0⟩
  exact ⟨hmem, h,
    sample_log_nonpositive (fun q => q) rW .s .T true false
      [((0 : ℚ), (100 : ℚ))] 0 100 hmem h⟩

/-- C7 counterexample: in SI mode the hover title's temperature suffix is
the string built on line 93 of `Rankine_app_MVC.py`, which is `"C"` — not
the `"K"` the claim requires. -/
theorem hover_title_kelvin_counterexample :
    hoverTUnit true = "C" ∧ hoverTUnit true ≠ "K" :=
  ⟨rfl, by decide⟩

/-- C7 (amended): the hover title carries unit suffixes matching the unit
system — entropy `kJ/(kg*K)` (SI) or `BTU/(lb*R)` (English), temperature
`C` (SI) or `F` (English) — and the title is assembled from exactly these
suffixes. -/
theorem hover_title_units :
    hoverSUnit true = "kJ/(kg*K)" ∧ hoverSUnit false = "BTU/(lb*R)" ∧
    hoverTUnit true = "C" ∧ hoverTUnit false = "F" ∧
    (∀ (si : Bool) (fmt : ℚ → String) (s : HoverState),
      hoverWindowTitle si fmt s =
        "s: " ++ fmt s.oldXData ++ " " ++ hoverSUnit si ++
          ", T: " ++ fmt s.oldYData ++ " " ++ hoverTUnit si) :=
  ⟨rfl, rfl, rfl, rfl, fun _ _ _ => rfl⟩

/-- C8: each axis-selection or log-scale event is wired to a slot whose
body is exactly one synchronous `updatePlot` controller call, and
`updatePlot` recomputes the whole plot sequence from the current result
and axis configuration (it takes no cached curve as input). -/
theorem plot_events_single_update :
    slotBody (assignSlots .cmbXAxisChanged) = [.updatePlot] ∧
    slotBody (assignSlots .cmbYAxisChanged) = [.updatePlot] ∧
    slotBody (assignSlots .chkLogXToggled) = [.updatePlot] ∧
    slotBody (assignSlots .chkLogYToggled) = [.updatePlot] ∧
    (∀ (logFn : ℚ → ℚ) (res : CycleResult) (cfg : PlotConfig),
      updatePlotResult logFn res cfg =
        sample logFn res cfg.xVar cfg.yVar cfg.logX cfg.logY cfg.dome) :=
  ⟨rfl, rfl, rfl, rfl, fun _ _ _ => rfl⟩

/-- C9: a mouse-move event updates each stored hover coordinate only when
the event datum is non-`None` and otherwise retains the stored value;
starting from the `0.0`-initialized state the stored coordinates after any
event run are the last in-axes data (or `0`), and the window title is
always formatted from those two numeric values. -/
theorem mouse_hover_retention :
    (∀ (s : HoverState) (e : CanvasEvent),
      (mouseMoveEventCanvas s e).oldXData = e.xdata.getD s.oldXData ∧
      (mouseMoveEventCanvas s e).oldYData = e.ydata.getD s.oldYData) ∧
    (∀ es : List CanvasEvent,
      (es.foldl mouseMoveEventCanvas initHover).oldXData =
        (lastEntered (es.map CanvasEvent.xdata)).getD 0 ∧
      (es.foldl mouseMoveEventCanvas initHover).oldYData =
        (lastEntered (es.map CanvasEvent.ydata)).getD 0) ∧
    (∀ (si : Bool) (fmt : ℚ → String) (es : List CanvasEvent),
      hoverWindowTitle si fmt (es.foldl mouseMoveEventCanvas initHover) =
        "s: " ++ fmt ((lastEntered (es.map CanvasEvent.xdata)).getD 0) ++
          " " ++ hoverSUnit si ++
          ", T: " ++ fmt ((lastEntered (es.map CanvasEvent.ydata)).getD 0) ++
          " " ++ hoverTUnit si) := by
  refine ⟨fun s e => ⟨rfl, rfl⟩, fun es => hoverFold_getD es initHover, ?_⟩
  intro si fmt es
  have h := hoverFold_getD es initHover
  rw [hoverWindowTitle, h.1, h.2]
  rfl

/-- C10: the constructor trace invokes `setNewPHigh`, then `setNewPLow`,
then `Calculate` — whose slot body is the full-model `updateModel`
controller call — all before the window is shown. -/
theorem init_populates_before_show :
    initTrace.indexOf .callSetNewPHigh < initTrace.indexOf .callSetNewPLow ∧
    initTrace.indexOf .callSetNewPLow < initTrace.indexOf .callCalculate ∧
    initTrace.indexOf .callCalculate < initTrace.indexOf .showWindow ∧
    InitStep.callSetNewPHigh ∈ initTrace ∧
    InitStep.callSetNewPLow ∈ initTrace ∧
    InitStep.callCalculate ∈ initTrace ∧
    InitStep.showWindow ∈ initTrace ∧
    slotBody .calculateSlot = [.updateModel] := by
  decide

end Rankine
